import Mathlib

/-!
# Verification of the ai_quizzer scoring and adaptive-difficulty pipeline

Shallow embedding of the grading, aggregation, attempt-lifecycle and
adaptive-difficulty logic of the ai_quizzer backend
(`src/controllers/submissionController.js`, `src/controllers/quizController.js`,
`src/services/aiService.js`, `src/models/Submission.js`, `src/models/User.js`),
with theorems settling the frozen specification claims.

Numbers: JavaScript numbers are modelled as exact rationals (ℚ) and integers
(ℤ/ℕ); `Math.round` is modelled as round-half-up (`⌊x + 1/2⌋`), which is its
behaviour on all reals. Dates are modelled as rational epoch-minute timestamps.
Fallible external calls (the Groq generation service) are modelled as explicit
outcome values.
-/

namespace AIQuizzer

/-- JavaScript `Math.round x`: rounds to the nearest integer, halves toward
positive infinity, i.e. `⌊x + 1/2⌋`. -/
def jsRound (q : ℚ) : ℤ := ⌊q + 1/2⌋

/-- The repository's two-decimal rounding idiom `Math.round(x * 100) / 100`. -/
def round2 (q : ℚ) : ℚ := (jsRound (q * 100) : ℚ) / 100

theorem jsRound_nonneg {q : ℚ} (h : 0 ≤ q) : 0 ≤ jsRound q := by
  have : (0:ℚ) ≤ q + 1/2 := by linarith
  exact Int.le_floor.mpr (by exact_mod_cast this)

theorem jsRound_le_of_le {q : ℚ} {B : ℤ} (h : q ≤ B) : jsRound q ≤ B := by
  have h1 : q + 1/2 < ((B + 1 : ℤ) : ℚ) := by push_cast; linarith
  have h2 := Int.floor_lt.mpr h1
  unfold jsRound
  omega

theorem round2_nonneg {q : ℚ} (h : 0 ≤ q) : 0 ≤ round2 q := by
  have h100 : 0 ≤ q * 100 := by positivity
  have := jsRound_nonneg h100
  unfold round2
  positivity

theorem round2_le_100 {q : ℚ} (h : q ≤ 100) : round2 q ≤ 100 := by
  have h100 : q * 100 ≤ ((10000 : ℤ) : ℚ) := by push_cast; linarith
  have hr := jsRound_le_of_le h100
  unfold round2
  rw [div_le_iff₀ (by norm_num : (0:ℚ) < 100)]
  exact_mod_cast le_trans (by exact_mod_cast hr) (by norm_num)

/-! ## JavaScript string split on `/\s+/`

`String.prototype.split(/\s+/)` splits at each maximal run of whitespace
characters.  An empty token appears at the front (resp. back) of the result
when the string starts (resp. ends) with whitespace, and the empty string
splits to `[""]`.  The repository's strings only involve ASCII whitespace. -/

/-- Characters matched by the regex class `\s` (ASCII range). -/
def isWsChar (c : Char) : Bool :=
  c = ' ' || c = '\t' || c = '\n' || c = '\r' || c = '\x0b' || c = '\x0c'

/-- Collapse each maximal run of whitespace characters to its last character.
Composing with `splitAtWs` below yields exactly the regex split on `\s+`,
where a separator is a maximal whitespace run. -/
def collapseWs : List Char → List Char
  | [] => []
  | [c] => [c]
  | c1 :: c2 :: rest =>
    if isWsChar c1 && isWsChar c2 then collapseWs (c2 :: rest)
    else c1 :: collapseWs (c2 :: rest)

/-- Split at every single whitespace character, keeping empty tokens (the
behaviour of JavaScript `split` with a separator that matches one char). -/
def splitAtWs : List Char → List (List Char)
  | [] => [[]]
  | c :: cs =>
    if isWsChar c then [] :: splitAtWs cs
    else
      match splitAtWs cs with
      | [] => [[c]]
      | t :: ts => (c :: t) :: ts

/-- `s.split(/\s+/)` for a string. -/
def jsSplitWs (s : String) : List String :=
  (splitAtWs (collapseWs s.data)).map (fun l => String.mk l)

theorem splitAtWs_ne_nil (l : List Char) : splitAtWs l ≠ [] := by
  match l with
  | [] => simp [splitAtWs]
  | c :: cs =>
    rw [splitAtWs]
    by_cases h : isWsChar c
    · simp [h]
    · simp only [h, Bool.false_eq_true, ite_false]
      match splitAtWs cs with
      | [] => simp
      | t :: ts => simp

theorem jsSplitWs_ne_nil (s : String) : jsSplitWs s ≠ [] := by
  unfold jsSplitWs
  simp [splitAtWs_ne_nil]

/-! ## Similarity Fallback (`calculateSimilarity`)

`aiService.js` lines 448–453 and `submissionController.js` lines 707–712
contain the identical function:

```js
calculateSimilarity(text1, text2) {
  const words1 = text1.split(/\s+/);
  const words2 = text2.split(/\s+/);
  const commonWords = words1.filter(word => words2.includes(word));
  return commonWords.length / Math.max(words1.length, words2.length);
}
```

Both call sites pass `.toLowerCase()`d strings. -/

def calculateSimilarity (text1 text2 : String) : ℚ :=
  (((jsSplitWs text1).filter (fun word => (jsSplitWs text2).contains word)).length : ℚ) /
    ((max (jsSplitWs text1).length (jsSplitWs text2).length : ℕ) : ℚ)

/-- ASCII model of JavaScript `String.prototype.toLowerCase`. -/
def toLowerString (s : String) : String := String.mk (s.data.map Char.toLower)

/-- The similarity formula as the specification words it: the number of words
of `a` (duplicates each counted) present anywhere in `b`, divided by the
maximum of the two word counts. -/
def specSimilarity (a b : String) : ℚ :=
  ((jsSplitWs a).countP (fun word => (jsSplitWs b).contains word) : ℚ) /
    ((max (jsSplitWs a).length (jsSplitWs b).length : ℕ) : ℚ)

theorem calculateSimilarity_nonneg (a b : String) : 0 ≤ calculateSimilarity a b := by
  unfold calculateSimilarity
  positivity

theorem calculateSimilarity_le_one (a b : String) : calculateSimilarity a b ≤ 1 := by
  unfold calculateSimilarity
  have hlen : ((jsSplitWs a).filter (fun word => (jsSplitWs b).contains word)).length ≤
      (jsSplitWs a).length := List.length_filter_le _ _
  have hpos : (0:ℚ) < (max (jsSplitWs a).length (jsSplitWs b).length : ℕ) := by
    have := jsSplitWs_ne_nil a
    have h1 : 0 < (jsSplitWs a).length := List.length_pos.mpr this
    have : 0 < max (jsSplitWs a).length (jsSplitWs b).length :=
      lt_of_lt_of_le h1 (le_max_left _ _)
    exact_mod_cast this
  rw [div_le_one hpos]
  have : ((jsSplitWs a).filter (fun word => (jsSplitWs b).contains word)).length ≤
      max (jsSplitWs a).length (jsSplitWs b).length :=
    le_trans hlen (le_max_left _ _)
  exact_mod_cast this

theorem calculateSimilarity_eq_spec (a b : String) :
    calculateSimilarity a b = specSimilarity a b := by
  unfold calculateSimilarity specSimilarity
  rw [List.countP_eq_length_filter]

/-- C1: for every pair of strings, `calculateSimilarity` returns the number of
words of the first (split on whitespace, duplicates each counted) that appear
anywhere in the second, divided by the maximum of the two word counts; the
call sites apply case folding before invoking it, and on the already folded
pair `"the cat sat"`/`"the cat"` the value is `2/3`; the result always lies in
`[0,1]`. -/
theorem C1_similarity_formula_and_bounds :
    (∀ a b : String, calculateSimilarity a b = specSimilarity a b) ∧
    calculateSimilarity "the cat sat" "the cat" = 2/3 ∧
    (∀ a b : String, 0 ≤ calculateSimilarity a b ∧ calculateSimilarity a b ≤ 1) := by
  refine ⟨calculateSimilarity_eq_spec, ?_, fun a b => ⟨calculateSimilarity_nonneg a b, calculateSimilarity_le_one a b⟩⟩
  have h1 : ((jsSplitWs "the cat sat").filter
      (fun word => (jsSplitWs "the cat").contains word)).length = 2 := by decide
  have h2 : (max (jsSplitWs "the cat sat").length (jsSplitWs "the cat").length : ℕ) = 3 := by
    decide
  unfold calculateSimilarity
  rw [h1, h2]
  norm_num

/-! ## Rolling user statistics (`User.prototype.updateStats`)

`src/models/User.js` lines 94–102:

```js
User.prototype.updateStats = async function(newScore) {
  const totalAttempts = this.total_quizzes_attempted + 1;
  const newAverage = ((this.average_score * this.total_quizzes_attempted) + newScore) / totalAttempts;
  await this.update({
    total_quizzes_attempted: totalAttempts,
    average_score: Math.round(newAverage * 100) / 100
  });
};
```
-/

/-- Returns the updated `(total_quizzes_attempted, average_score)` pair. -/
def updateStats (total_quizzes_attempted : ℕ) (average_score newScore : ℚ) : ℕ × ℚ :=
  let totalAttempts := total_quizzes_attempted + 1
  let newAverage := ((average_score * total_quizzes_attempted) + newScore) / totalAttempts
  (totalAttempts, round2 newAverage)

/-- C8: the updated rolling average is
`round(((oldAverage*oldCount)+newScore)/(oldCount+1), 2)` with the
pre-increment count as weight, and the count becomes `oldCount + 1`; in
particular `count=2, average=80, newScore=100` yields `86.67`. -/
theorem C8_rolling_average :
    (∀ (oldCount : ℕ) (oldAverage newScore : ℚ),
      updateStats oldCount oldAverage newScore =
        (oldCount + 1, round2 (((oldAverage * oldCount) + newScore) / (oldCount + 1)))) ∧
    updateStats 2 80 100 = (3, 86.67) := by
  constructor
  · intro oldCount oldAverage newScore
    unfold updateStats
    push_cast
    norm_num
  · unfold updateStats round2 jsRound
    norm_num

/-! ## Submission score (`Submission.prototype.calculateScore`)

`src/models/Submission.js` lines 108–111:

```js
Submission.prototype.calculateScore = function() {
  if (this.total_points_possible === 0) return 0;
  return Math.round((this.total_points_earned / this.total_points_possible) * 100 * 100) / 100;
};
```
-/

def calculateScore (total_points_earned total_points_possible : ℤ) : ℚ :=
  if total_points_possible = 0 then 0
  else round2 ((total_points_earned : ℚ) / (total_points_possible : ℚ) * 100)

/-- C3: for every finalized submission (`0 ≤ earned ≤ possible`),
`score_percentage` equals `round(earned/possible*100, 2)`, equals `0` when
`possible = 0`, and lies in `[0, 100]`. -/
theorem C3_score_percentage (e p : ℤ) (h0 : 0 ≤ e) (hep : e ≤ p) :
    (p ≠ 0 → calculateScore e p = round2 ((e : ℚ) / (p : ℚ) * 100)) ∧
    (p = 0 → calculateScore e p = 0) ∧
    0 ≤ calculateScore e p ∧ calculateScore e p ≤ 100 := by
  refine ⟨fun hp => by simp [calculateScore, hp], fun hp => by simp [calculateScore, hp], ?_, ?_⟩
  · by_cases hp : p = 0
    · simp [calculateScore, hp]
    · have hppos : (0:ℚ) < (p : ℚ) := by
        have : 0 < p := lt_of_le_of_ne (le_trans h0 hep) (Ne.symm hp)
        exact_mod_cast this
      have : (0:ℚ) ≤ (e : ℚ) / (p : ℚ) * 100 := by
        have he : (0:ℚ) ≤ (e : ℚ) := by exact_mod_cast h0
        positivity
      simp only [calculateScore, hp, if_false]
      exact round2_nonneg this
  · by_cases hp : p = 0
    · simp [calculateScore, hp]
    · have hppos : (0:ℚ) < (p : ℚ) := by
        have : 0 < p := lt_of_le_of_ne (le_trans h0 hep) (Ne.symm hp)
        exact_mod_cast this
      have hle : (e : ℚ) / (p : ℚ) * 100 ≤ 100 := by
        have hepq : (e : ℚ) ≤ (p : ℚ) := by exact_mod_cast hep
        have : (e : ℚ) / (p : ℚ) ≤ 1 := (div_le_one hppos).mpr hepq
        linarith
      simp only [calculateScore, hp, if_false]
      exact round2_le_100 hle

/-- Witness for C3 at `earned = 1`, `possible = 3`:
`round(1/3*100, 2) = 33.33`. -/
theorem C3_score_percentage_witness :
    calculateScore 1 3 = 33.33 ∧ (0 ≤ calculateScore 1 3 ∧ calculateScore 1 3 ≤ 100) := by
  have h := C3_score_percentage 1 3 (by norm_num) (by norm_num)
  refine ⟨?_, h.2.2⟩
  have h1 := h.1 (by norm_num)
  rw [h1]
  unfold round2 jsRound
  norm_num [Int.floor_eq_iff]

/-! ## Data model

Mirrors `src/models/Quiz.js` (Quiz, Question), `src/models/Submission.js`
(Submission, Answer) and the request shapes used by
`src/controllers/submissionController.js`.  Ids are modelled as naturals,
timestamps as rational epoch minutes. -/

inductive QType where
  | multiple_choice
  | true_false
  | short_answer
  | essay
deriving DecidableEq, Repr

structure Question where
  id : ℕ
  question_text : String
  question_type : QType
  options : List String
  correct_answer : String
  explanation : Option String
  points : ℤ
  question_order : ℕ
deriving DecidableEq, Repr

inductive SubStatus where
  | in_progress
  | completed
  | abandoned
  | expired
deriving DecidableEq, Repr

structure Quiz where
  id : ℕ
  title : String
  subject : String
  grade_level : ℕ
  max_attempts : ℕ
  time_limit_minutes : Option ℕ
  is_active : Bool
  questions : List Question
deriving DecidableEq, Repr

/-- Structured performance analysis stored on a completed submission. -/
structure PerfAnalysis where
  strengths : List ℕ
  weaknesses : List ℕ
  average_time_per_question : ℚ
deriving DecidableEq, Repr

structure Submission where
  id : ℕ
  user_id : ℕ
  quiz_id : ℕ
  attempt_number : ℕ
  total_questions : ℕ
  correct_answers : ℕ
  score_percentage : ℚ
  total_points_earned : ℤ
  total_points_possible : ℤ
  time_taken_minutes : Option ℚ
  started_at : ℚ
  completed_at : Option ℚ
  status : SubStatus
  improvement_suggestions : List String
  performance_analysis : Option PerfAnalysis
deriving DecidableEq, Repr

/-- One element of the request body `answers` array:
`{question_id, answer, time_taken, hint_used}`. -/
structure UserAnswer where
  question_id : ℕ
  answer : String
  time_taken : Option ℕ
  hint_used : Bool
deriving DecidableEq, Repr

/-- A persisted `Answer` row (`src/models/Submission.js`, AnswerModel). -/
structure AnswerRecord where
  submission_id : ℕ
  question_id : ℕ
  user_answer : String
  is_correct : Bool
  points_earned : ℤ
  time_taken_seconds : Option ℕ
  hint_used : Bool
  ai_explanation : Option String
deriving DecidableEq, Repr

/-- One element of the `answerResults` array built in `submitQuiz`
(`submissionController.js` lines 234–244).  The source object literal does
NOT set a `time_taken_seconds` property; reading that property later (line
292) yields `undefined`.  The absent property is modelled by an `Option`
field that construction always leaves at `none`. -/
structure AnswerResult where
  question_id : ℕ
  question_text : String
  user_answer : String
  correct_answer : String
  is_correct : Bool
  points_earned : ℤ
  points_possible : ℤ
  explanation : Option String
  ai_explanation : Option String
  time_taken_seconds : Option ℕ
deriving DecidableEq, Repr

/-! ## Generation Service outcomes and answer evaluation

`aiService.evaluateAnswer` (`aiService.js` lines 381–443): when the Groq
client is not configured it returns the similarity fallback object; when the
Groq call or the JSON parse throws, its own `catch` returns the identical
fallback object; otherwise it returns the parsed evaluation.  In all three
cases it returns normally — it never rejects on string inputs, so the
`catch (aiError)` branch of `submitQuiz` (`submissionController.js` lines
207–216) cannot fire from an evaluation failure. -/

inductive AIOutcome where
  | unavailable
  | failure
  | success (isCorrect : Bool) (partialCredit : ℚ) (feedback : String)
deriving DecidableEq, Repr

structure EvalResult where
  isCorrect : Bool
  score : ℤ
  feedback : String
  partialCredit : ℚ
deriving DecidableEq, Repr

/-- The fallback object built at `aiService.js` lines 384–391 (and
identically at lines 435–442). -/
def evaluateAnswerFallback (userAnswer correctAnswer : String) : EvalResult :=
  let similarity := calculateSimilarity (toLowerString userAnswer) (toLowerString correctAnswer)
  { isCorrect := decide ((7:ℚ)/10 < similarity)
    score := jsRound (similarity * 100)
    feedback := if (7:ℚ)/10 < similarity then "Good answer!"
      else "Please review the correct answer and try to understand the key concepts."
    partialCredit := similarity }

/-- `aiService.evaluateAnswer`, parametrised by the Generation Service
outcome. -/
def evaluateAnswer (userAnswer correctAnswer : String) : AIOutcome → EvalResult
  | .unavailable => evaluateAnswerFallback userAnswer correctAnswer
  | .failure => evaluateAnswerFallback userAnswer correctAnswer
  | .success ic pc fb =>
    { isCorrect := ic
      score := jsRound (pc * 100)
      feedback := fb
      partialCredit := pc }

/-- Grading of one answer inside the `submitQuiz` loop
(`submissionController.js` lines 186–217): returns
`(isCorrect, pointsEarned, aiExplanation)`. -/
def gradeAnswer (q : Question) (userAnswer : String) (ai : AIOutcome) :
    Bool × ℤ × Option String :=
  match q.question_type with
  | .multiple_choice | .true_false =>
    let isCorrect := toLowerString userAnswer == toLowerString q.correct_answer
    (isCorrect, if isCorrect then q.points else 0, none)
  | .short_answer | .essay =>
    let evaluation := evaluateAnswer userAnswer q.correct_answer ai
    (evaluation.isCorrect, jsRound ((q.points : ℚ) * evaluation.partialCredit),
      some evaluation.feedback)

/-! ## Submit pipeline (`submissionController.submitQuiz`) -/

/-- Error identifiers returned by `submitQuiz`. -/
inductive SubmitError where
  | SUBMISSION_NOT_FOUND
  | QUIZ_NOT_IN_PROGRESS
  | TIME_LIMIT_EXCEEDED
deriving DecidableEq, Repr

/-- Letter grade thresholds (`submissionController.js` lines 726–737). -/
def getGrade (scorePercentage : ℚ) : String :=
  if scorePercentage ≥ 90 then "A+"
  else if scorePercentage ≥ 85 then "A"
  else if scorePercentage ≥ 80 then "A-"
  else if scorePercentage ≥ 75 then "B+"
  else if scorePercentage ≥ 70 then "B"
  else if scorePercentage ≥ 65 then "B-"
  else if scorePercentage ≥ 60 then "C+"
  else if scorePercentage ≥ 55 then "C"
  else if scorePercentage ≥ 50 then "C-"
  else "F"

/-- Accumulator of the `for (const userAnswer of answers)` loop
(`submissionController.js` lines 177–245): persisted Answer rows, the
`answerResults` array, `totalPointsEarned` and `correctAnswers`. -/
structure GradingState where
  records : List AnswerRecord
  results : List AnswerResult
  totalPointsEarned : ℤ
  correctAnswers : ℕ
deriving DecidableEq, Repr

/-- JavaScript `userAnswer.time_taken || null`: `0` is falsy and becomes
`null`. -/
def timeTakenOrNull : Option ℕ → Option ℕ
  | some 0 => none
  | o => o

/-- One iteration of the answer loop: look up the question by id (skip the
answer when absent), grade, persist an Answer row and push a result entry. -/
def processOneAnswer (subId : ℕ) (questions : List Question)
    (ai : Question → String → AIOutcome) (st : GradingState) (ua : UserAnswer) :
    GradingState :=
  match questions.find? (fun q => q.id == ua.question_id) with
  | none => st
  | some q =>
    let g := gradeAnswer q ua.answer (ai q ua.answer)
    { records := st.records ++ [{
        submission_id := subId
        question_id := q.id
        user_answer := ua.answer
        is_correct := g.1
        points_earned := g.2.1
        time_taken_seconds := timeTakenOrNull ua.time_taken
        hint_used := ua.hint_used
        ai_explanation := g.2.2 }]
      results := st.results ++ [{
        question_id := q.id
        question_text := q.question_text
        user_answer := ua.answer
        correct_answer := q.correct_answer
        is_correct := g.1
        points_earned := g.2.1
        points_possible := q.points
        explanation := q.explanation
        ai_explanation := g.2.2
        time_taken_seconds := none }]
      totalPointsEarned := st.totalPointsEarned + g.2.1
      correctAnswers := st.correctAnswers + (if g.1 then 1 else 0) }

def processAnswers (subId : ℕ) (questions : List Question)
    (ai : Question → String → AIOutcome) (answers : List UserAnswer) : GradingState :=
  answers.foldl (processOneAnswer subId questions ai) ⟨[], [], 0, 0⟩

/-- The full effect of one `submitQuiz` call: the error (if any), the
submission row after the call, the Answer rows created, the results array
and the improvement suggestions of the response. -/
structure SubmitOutcome where
  error : Option SubmitError
  submission : Submission
  createdAnswers : List AnswerRecord
  results : List AnswerResult
  suggestions : List String
  grade : String
  can_retry : Bool
deriving DecidableEq, Repr

/-- The two fixed generic suggestions of the controller's catch branch
(`submissionController.js` lines 280–283). -/
def genericSuggestions : List String :=
  ["Review the questions you got wrong and study the explanations.",
   "Practice more problems in areas where you struggled."]

/-- `submissionController.submitQuiz` (lines 115–325).  `userId` is the
authenticated caller, `now` the current time in epoch minutes (the source
computes elapsed time as `(new Date() - started_at) / (1000 * 60)`), `ai`
gives the Generation Service outcome for each evaluated answer, and `sugg`
the outcome of `generateImprovementSuggestions` (`none` = the call threw). -/
def submitQuiz (userId : ℕ) (sub : Submission) (quiz : Quiz)
    (answers : List UserAnswer) (now : ℚ) (ai : Question → String → AIOutcome)
    (sugg : Option (List String)) : SubmitOutcome :=
  if sub.user_id ≠ userId then
    ⟨some .SUBMISSION_NOT_FOUND, sub, [], [], [], "", false⟩
  else if sub.status ≠ .in_progress then
    ⟨some .QUIZ_NOT_IN_PROGRESS, sub, [], [], [], "", false⟩
  else if (match quiz.time_limit_minutes with
           | some limit => limit ≠ 0 && decide (now - sub.started_at > (limit : ℚ))
           | none => false) then
    ⟨some .TIME_LIMIT_EXCEEDED, { sub with status := .expired }, [], [], [], "", false⟩
  else
    let st := processAnswers sub.id quiz.questions ai answers
    let sub1 := { sub with
      correct_answers := st.correctAnswers
      total_points_earned := st.totalPointsEarned
      status := SubStatus.completed }
    let sub2 := { sub1 with
      completed_at := some now
      time_taken_minutes := some (now - sub1.started_at)
      status := SubStatus.completed
      score_percentage := calculateScore sub1.total_points_earned sub1.total_points_possible }
    let incorrectQuestions := (st.results.filter (fun r => !r.is_correct)).map
      (fun r => r.question_text)
    let improvementSuggestions :=
      if incorrectQuestions.length > 0 then
        match sugg with
        | some l => l
        | none => genericSuggestions
      else []
    let perf : PerfAnalysis := {
      strengths := (st.results.filter (fun r => r.is_correct)).map (fun r => r.question_id)
      weaknesses := (st.results.filter (fun r => !r.is_correct)).map (fun r => r.question_id)
      average_time_per_question :=
        ((st.results.map (fun r => ((r.time_taken_seconds.getD 0 : ℕ) : ℚ))).sum) /
          (st.results.length : ℚ) }
    let sub3 := { sub2 with
      improvement_suggestions := improvementSuggestions
      performance_analysis := some perf }
    ⟨none, sub3, st.records, st.results, improvementSuggestions,
      getGrade sub3.score_percentage, sub3.attempt_number < quiz.max_attempts⟩

/-! ## C2: open-ended grading under Generation Service unavailability/failure -/

/-- Concrete short-answer question for the C2 analysis: 10 points,
reference answer `"a b c x"`. -/
def C2q : Question :=
  { id := 1
    question_text := "name the four letters"
    question_type := .short_answer
    options := []
    correct_answer := "a b c x"
    explanation := none
    points := 10
    question_order := 1 }

theorem C2_sim_value :
    calculateSimilarity (toLowerString "a b c d") (toLowerString "a b c x") = 3/4 := by
  have h1 : ((jsSplitWs (toLowerString "a b c d")).filter
      (fun word => (jsSplitWs (toLowerString "a b c x")).contains word)).length = 3 := by decide
  have h2 : (max (jsSplitWs (toLowerString "a b c d")).length
      (jsSplitWs (toLowerString "a b c x")).length : ℕ) = 4 := by decide
  unfold calculateSimilarity
  rw [h1, h2]
  norm_num

/-- C2 counterexample: with the Generation Service unavailable, the 10-point
short-answer question `C2q` answered `"a b c d"` has similarity `3/4 > 0.7`,
so `isCorrect` is true, yet the earned points are `round(10 * 3/4) = 8`, not
the full 10 claimed: `evaluateAnswer` returns the fallback through the normal
path and the controller always computes `round(points * partialCredit)`. -/
theorem C2_counterexample :
    (gradeAnswer C2q "a b c d" .unavailable).1 = true ∧
    (gradeAnswer C2q "a b c d" .unavailable).2.1 = 8 ∧
    (gradeAnswer C2q "a b c d" .unavailable).2.1 ≠ C2q.points := by
  have hsim := C2_sim_value
  unfold gradeAnswer evaluateAnswer evaluateAnswerFallback C2q
  simp only [hsim]
  norm_num [jsRound]

/-- C2 (amended): for every short_answer or essay question graded while the
Generation Service is unavailable or after it fails, the answer is scored by
the Similarity Fallback with `isCorrect = similarity > 0.7`, but
`pointsEarned = round(points * similarity)` in both cases — including when
`isCorrect` is true.  (`aiService.evaluateAnswer` catches its own failure and
returns the fallback object through the normal path, so the controller's
full-points branch never executes.) -/
theorem C2_amended_fallback_scoring (q : Question) (ua : String) (ai : AIOutcome)
    (hq : q.question_type = .short_answer ∨ q.question_type = .essay)
    (hai : ai = .unavailable ∨ ai = .failure) :
    gradeAnswer q ua ai =
      (decide ((7:ℚ)/10 < calculateSimilarity (toLowerString ua) (toLowerString q.correct_answer)),
       jsRound ((q.points : ℚ) *
         calculateSimilarity (toLowerString ua) (toLowerString q.correct_answer)),
       some (if (7:ℚ)/10 < calculateSimilarity (toLowerString ua) (toLowerString q.correct_answer)
         then "Good answer!"
         else "Please review the correct answer and try to understand the key concepts.")) := by
  rcases hai with h | h <;> subst h <;>
    rcases hq with h | h <;>
      simp [gradeAnswer, h, evaluateAnswer, evaluateAnswerFallback]

/-- Witness for the amended C2 theorem at the failure outcome on `C2q`. -/
theorem C2_amended_fallback_scoring_witness :
    gradeAnswer C2q "a b c d" .failure = (true, 8, some "Good answer!") := by
  have h := C2_amended_fallback_scoring C2q "a b c d" .failure (Or.inl rfl) (Or.inr rfl)
  rw [h]
  have hsim : calculateSimilarity (toLowerString "a b c d")
      (toLowerString C2q.correct_answer) = 3/4 := C2_sim_value
  rw [hsim]
  norm_num [jsRound, C2q]

/-! ## Adaptive difficulty (`aiService.adaptQuizDifficulty`, lines 309–376)

The caller (`quizController.generateQuiz`, quizController lines 36–61)
supplies the history ordered by `completed_at DESC` — most recent FIRST —
and reads `.difficulty` off the returned value. -/

/-- One element of the history array passed by `quizController.generateQuiz`:
`{score_percentage, difficulty}`. -/
structure HistoryEntry where
  score_percentage : ℚ
  difficulty : String
deriving DecidableEq, Repr

/-- `aiService.calculateTrend` (lines 351–361): first half
`slice(0, floor(n/2))`, second half `slice(floor(n/2))`, trend
`secondAvg - firstAvg`. -/
def calculateTrend (scores : List ℚ) : ℚ :=
  if scores.length < 2 then 0
  else
    let firstHalf := scores.take (scores.length / 2)
    let secondHalf := scores.drop (scores.length / 2)
    secondHalf.sum / (secondHalf.length : ℚ) - firstHalf.sum / (firstHalf.length : ℚ)

/-- `aiService.getDifficultyReasoning` (lines 366–376). -/
def getDifficultyReasoning (averageScore trend : ℚ) : String :=
  if averageScore ≥ 85 ∧ trend ≥ 0 then
    "You\x27re doing great! Ready for more challenging questions."
  else if averageScore ≥ 70 then "Good progress! Continuing with moderate difficulty."
  else if averageScore < 60 then "Let\x27s focus on building confidence with easier questions."
  else "Mixed difficulty to help you improve gradually."

/-- The recommendation object of the non-empty-history return path. -/
structure Recommendation where
  difficulty : String
  reasoning : String
  averageScore : ℚ
  trend : String
deriving DecidableEq, Repr

/-- `adaptQuizDifficulty` returns the bare string `'mixed'` on the
empty-history path and a recommendation object on the other paths; the sum
type keeps both shapes. -/
inductive AdaptResult where
  | plain (s : String)
  | obj (r : Recommendation)
deriving DecidableEq, Repr

/-- JavaScript property access `result.difficulty`: reading `.difficulty` off
a plain string yields `undefined` (`none`). -/
def difficultyField : AdaptResult → Option String
  | .plain _ => none
  | .obj r => some r.difficulty

/-- `aiService.adaptQuizDifficulty` (lines 309–346).  `slice(-5)` takes the
LAST five elements of the array.  The `catch` branch (lines 337–345) is
unreachable on well-typed input and is not part of this embedding. -/
def adaptQuizDifficulty (userHistory : List HistoryEntry) : AdaptResult :=
  if userHistory.isEmpty then .plain "mixed"
  else
    let recentQuizzes := userHistory.drop (userHistory.length - 5)
    let averageScore := (recentQuizzes.map (fun q => q.score_percentage)).sum /
      (recentQuizzes.length : ℚ)
    let trend := calculateTrend (recentQuizzes.map (fun q => q.score_percentage))
    let recommendedDifficulty :=
      if averageScore ≥ 85 ∧ trend ≥ 0 then "hard"
      else if averageScore ≥ 70 then "medium"
      else if averageScore < 60 then "easy"
      else "mixed"
    .obj { difficulty := recommendedDifficulty
           reasoning := getDifficultyReasoning averageScore trend
           averageScore := round2 averageScore
           trend := if trend > 0 then "improving"
             else if trend < 0 then "declining" else "stable" }

/-- The window the code actually averages: the last at-most-5 entries of the
supplied array (`slice(-5)`) — the OLDEST five when the caller supplies
most-recent-first order. -/
def lastFiveScores (h : List HistoryEntry) : List ℚ :=
  (h.drop (h.length - 5)).map (fun q => q.score_percentage)

def windowAvg (h : List HistoryEntry) : ℚ :=
  (lastFiveScores h).sum / ((lastFiveScores h).length : ℚ)

def windowTrend (h : List HistoryEntry) : ℚ := calculateTrend (lastFiveScores h)

/-- Modelled from the claim wording (refinement comparison only): the window
is the most recent — i.e. FIRST, under the caller's most-recent-first
ordering — at most 5 entries, then the same decision table. -/
def claimRecommendDifficulty (userHistory : List HistoryEntry) : String :=
  let recent := userHistory.take 5
  let averageScore := (recent.map (fun q => q.score_percentage)).sum / (recent.length : ℚ)
  let trend := calculateTrend (recent.map (fun q => q.score_percentage))
  if averageScore ≥ 85 ∧ trend ≥ 0 then "hard"
  else if averageScore ≥ 70 then "medium"
  else if averageScore < 60 then "easy"
  else "mixed"

/-- Six-entry history, most recent first: five scores of 90, oldest score 10. -/
def hist6 : List HistoryEntry :=
  [⟨90, "hard"⟩, ⟨90, "hard"⟩, ⟨90, "hard"⟩, ⟨90, "hard"⟩, ⟨90, "hard"⟩, ⟨10, "hard"⟩]

/-- C4 counterexample: on `hist6` (supplied most-recent-first) the claim's
rule — decision table over the most recent 5 entries (five 90s, average 90,
flat trend) — selects `hard`, but the code windows with `slice(-5)`, i.e.
the oldest five `[90,90,90,90,10]` (average 74, falling trend), and returns
`medium`. -/
theorem C4_counterexample :
    difficultyField (adaptQuizDifficulty hist6) = some "medium" ∧
    claimRecommendDifficulty hist6 = "hard" := by
  constructor
  · norm_num [adaptQuizDifficulty, hist6, difficultyField, calculateTrend,
      getDifficultyReasoning]
  · norm_num [claimRecommendDifficulty, hist6, calculateTrend]

/-- C4 (amended): for every non-empty history supplied most-recent-first, the
recommendation windows the LAST at most 5 entries of the array (the oldest
five when more than 5 are supplied), computes their arithmetic mean and the
half-split trend, and selects the difficulty by the first matching rule
avg≥85∧trend≥0 → hard; avg≥70 → medium; avg<60 → easy; else mixed. -/
theorem C4_amended_last_five_window (h : List HistoryEntry) (hne : h ≠ []) :
    adaptQuizDifficulty h = .obj
      { difficulty :=
          if windowAvg h ≥ 85 ∧ windowTrend h ≥ 0 then "hard"
          else if windowAvg h ≥ 70 then "medium"
          else if windowAvg h < 60 then "easy"
          else "mixed"
        reasoning := getDifficultyReasoning (windowAvg h) (windowTrend h)
        averageScore := round2 (windowAvg h)
        trend := if windowTrend h > 0 then "improving"
          else if windowTrend h < 0 then "declining" else "stable" } := by
  unfold adaptQuizDifficulty windowAvg windowTrend lastFiveScores
  simp [List.isEmpty_iff, hne]

/-- Witness for the amended C4 theorem on a one-entry history of score 50. -/
theorem C4_amended_last_five_window_witness :
    adaptQuizDifficulty [⟨50, "easy"⟩] = .obj
      { difficulty := "easy"
        reasoning := "Let\x27s focus on building confidence with easier questions."
        averageScore := 50
        trend := "stable" } := by
  have h := C4_amended_last_five_window [⟨50, "easy"⟩] (by simp)
  rw [h]
  norm_num [windowAvg, windowTrend, lastFiveScores, calculateTrend,
    getDifficultyReasoning, round2, jsRound]

/-- C5: the empty-history path of `adaptQuizDifficulty` returns the bare
string `'mixed'`, not a recommendation object: the caller's
`difficultyAnalysis.difficulty` read yields `undefined`. -/
theorem C5_empty_history_returns_plain_string :
    adaptQuizDifficulty [] = .plain "mixed" ∧
    difficultyField (adaptQuizDifficulty []) = none := ⟨rfl, rfl⟩

/-- Supporting fact for the finalized-submission hypotheses of the score
theorem: objective grading and similarity-fallback grading earn between 0 and
the question's points, so summed totals satisfy `0 ≤ earned ≤ possible`
whenever every answered question is counted once.  (Only a `success` outcome
with an out-of-range `partialCredit` from the Generation Service could break
the bound.) -/
theorem gradeAnswer_points_bounds (q : Question) (ua : String) (ai : AIOutcome)
    (hpts : 0 ≤ q.points) (hai : ai = .unavailable ∨ ai = .failure) :
    0 ≤ (gradeAnswer q ua ai).2.1 ∧ (gradeAnswer q ua ai).2.1 ≤ q.points := by
  have hsim0 := calculateSimilarity_nonneg (toLowerString ua) (toLowerString q.correct_answer)
  have hsim1 := calculateSimilarity_le_one (toLowerString ua) (toLowerString q.correct_answer)
  have hfall : ∀ h : AIOutcome, h = .unavailable ∨ h = .failure →
      (evaluateAnswer ua q.correct_answer h).partialCredit =
        calculateSimilarity (toLowerString ua) (toLowerString q.correct_answer) := by
    intro h hh
    rcases hh with h1 | h1 <;> subst h1 <;> rfl
  rcases hty : q.question_type with _ | _ | _ | _ <;>
    simp only [gradeAnswer, hty]
  case multiple_choice | true_false =>
    by_cases hc : toLowerString ua == toLowerString q.correct_answer <;>
      simp [hc, hpts]
  case short_answer | essay =>
    rw [hfall ai hai]
    constructor
    · exact jsRound_nonneg (by positivity)
    · apply jsRound_le_of_le
      calc (q.points : ℚ) * calculateSimilarity (toLowerString ua) (toLowerString q.correct_answer)
          ≤ (q.points : ℚ) * 1 := by
            apply mul_le_mul_of_nonneg_left hsim1
            exact_mod_cast hpts
        _ = (q.points : ℚ) := mul_one _

/-- Witness for the grading bounds at the 10-point question `C2q`. -/
theorem gradeAnswer_points_bounds_check :
    0 ≤ (gradeAnswer C2q "x y" .unavailable).2.1 ∧
      (gradeAnswer C2q "x y" .unavailable).2.1 ≤ C2q.points :=
  gradeAnswer_points_bounds C2q "x y" .unavailable (by norm_num [C2q]) (Or.inl rfl)

/-! ## C6: time-limit expiry -/

/-- C6: submitting an in_progress submission whose quiz has a (nonzero) time
limit after more elapsed minutes than the limit transitions the submission to
`expired`, rejects with `TIME_LIMIT_EXCEEDED`, creates no Answer rows, grades
nothing, and changes no submission field other than `status`. -/
theorem C6_time_limit_expiry (userId : ℕ) (sub : Submission) (quiz : Quiz)
    (answers : List UserAnswer) (now : ℚ) (ai : Question → String → AIOutcome)
    (sugg : Option (List String)) (L : ℕ)
    (hown : sub.user_id = userId) (hst : sub.status = .in_progress)
    (hL : quiz.time_limit_minutes = some L) (hL0 : L ≠ 0)
    (helapsed : now - sub.started_at > (L : ℚ)) :
    submitQuiz userId sub quiz answers now ai sugg =
      ⟨some .TIME_LIMIT_EXCEEDED, { sub with status := .expired }, [], [], [], "", false⟩ := by
  unfold submitQuiz
  simp [hown, hst, hL, hL0, helapsed]

/-- In-progress submission used by the concrete lifecycle theorems: started
at minute 0 by user 7 on quiz 3, one 1-point question. -/
def subC : Submission :=
  { id := 11
    user_id := 7
    quiz_id := 3
    attempt_number := 1
    total_questions := 1
    correct_answers := 0
    score_percentage := 0
    total_points_earned := 0
    total_points_possible := 1
    time_taken_minutes := none
    started_at := 0
    completed_at := none
    status := .in_progress
    improvement_suggestions := []
    performance_analysis := none }

/-- Multiple-choice question `id 1`, correct answer `"a"`, 1 point. -/
def qMC : Question :=
  { id := 1
    question_text := "pick the first letter"
    question_type := .multiple_choice
    options := ["a", "b", "c", "d"]
    correct_answer := "a"
    explanation := none
    points := 1
    question_order := 1 }

/-- Quiz 3 holding `qMC`, one-minute time limit, 3 attempts. -/
def quizC : Quiz :=
  { id := 3
    title := "letters quiz"
    subject := "english"
    grade_level := 5
    max_attempts := 3
    time_limit_minutes := some 1
    is_active := true
    questions := [qMC] }

/-- Witness for C6: submit at minute 2 against the 1-minute limit of
`quizC`. -/
theorem C6_time_limit_expiry_witness :
    submitQuiz 7 subC quizC [⟨1, "a", some 30, false⟩] 2 (fun _ _ => .unavailable) none =
      ⟨some .TIME_LIMIT_EXCEEDED, { subC with status := .expired }, [], [], [], "", false⟩ :=
  C6_time_limit_expiry 7 subC quizC [⟨1, "a", some 30, false⟩] 2 (fun _ _ => .unavailable)
    none 1 rfl rfl rfl (by norm_num) (by norm_num [subC])

/-! ## C9: average time per question -/

/-- Modelled from the claim: the arithmetic mean of the graded answers'
`time_taken_seconds`, each missing value treated as 0. -/
def claimAvgTimePerQuestion (records : List AnswerRecord) : ℚ :=
  (records.map (fun r => ((r.time_taken_seconds.getD 0 : ℕ) : ℚ))).sum /
    (records.length : ℚ)

/-- Quiz 3 without a time limit, for the grading-path theorems. -/
def quizNoLimit : Quiz := { quizC with time_limit_minutes := none }

/-- C9 failing input evaluated: one correct multiple-choice answer submitted
with `time_taken = 30` seconds.  The Answer row records 30 seconds, so the
claimed mean is 30; but the stored `performance_analysis` has
`average_time_per_question = 0`, because the reduce at line 292 reads
`time_taken_seconds` off the `answerResults` objects, which are built
without that property (lines 234–244). -/
theorem C9_avg_time_always_zero :
    (submitQuiz 7 subC quizNoLimit [⟨1, "a", some 30, false⟩] 2
        (fun _ _ => .unavailable) none).submission.performance_analysis =
      some { strengths := [1], weaknesses := [], average_time_per_question := 0 } ∧
    claimAvgTimePerQuestion
      (submitQuiz 7 subC quizNoLimit [⟨1, "a", some 30, false⟩] 2
        (fun _ _ => .unavailable) none).createdAnswers = 30 := by
  constructor
  · norm_num [submitQuiz, subC, quizNoLimit, quizC, qMC, processAnswers,
      processOneAnswer, gradeAnswer, timeTakenOrNull, List.find?, List.foldl]
  · norm_num [submitQuiz, subC, quizNoLimit, quizC, qMC, processAnswers,
      processOneAnswer, gradeAnswer, timeTakenOrNull, claimAvgTimePerQuestion,
      List.find?, List.foldl]

/-! ## C10: unmatched question ids are silently skipped -/

theorem processOneAnswer_skip (subId : ℕ) (questions : List Question)
    (ai : Question → String → AIOutcome) (st : GradingState) (ua : UserAnswer)
    (h : (questions.find? (fun q => q.id == ua.question_id)).isSome = false) :
    processOneAnswer subId questions ai st ua = st := by
  unfold processOneAnswer
  rcases hfind : questions.find? (fun q => q.id == ua.question_id) with _ | q
  · rw [hfind]
  · rw [hfind] at h
    simp at h

theorem processAnswers_filter (subId : ℕ) (questions : List Question)
    (ai : Question → String → AIOutcome) (answers : List UserAnswer) :
    processAnswers subId questions ai answers =
      processAnswers subId questions ai
        (answers.filter
          (fun ua => (questions.find? (fun q => q.id == ua.question_id)).isSome)) := by
  unfold processAnswers
  generalize (⟨[], [], 0, 0⟩ : GradingState) = st
  induction answers generalizing st with
  | nil => rfl
  | cons ua rest ih =>
    by_cases h : (questions.find? (fun q => q.id == ua.question_id)).isSome
    · rw [List.filter_cons_of_pos (by simpa using h)]
      simp only [List.foldl_cons]
      exact ih _
    · rw [List.filter_cons_of_neg (by simpa using h)]
      simp only [List.foldl_cons]
      rw [processOneAnswer_skip subId questions ai st ua (by simpa using h)]
      exact ih _

/-- C10: answers whose `question_id` matches no question of the submission's
quiz are silently skipped — the whole `submitQuiz` call behaves exactly as if
only the matching answers had been submitted: no Answer row, no error, no
contribution to any total, and the submission still completes normally. -/
theorem C10_unmatched_answers_skipped (userId : ℕ) (sub : Submission) (quiz : Quiz)
    (answers : List UserAnswer) (now : ℚ) (ai : Question → String → AIOutcome)
    (sugg : Option (List String)) :
    submitQuiz userId sub quiz answers now ai sugg =
      submitQuiz userId sub quiz
        (answers.filter
          (fun ua => (quiz.questions.find? (fun q => q.id == ua.question_id)).isSome))
        now ai sugg := by
  unfold submitQuiz
  rw [processAnswers_filter]

/-! ## Attempt lifecycle: `startQuiz` (`submissionController.js` lines 11–110)

The submissions table is modelled as a list; a created row is prepended.
`newId` is the id the storage layer would assign and `now` the `started_at`
default. -/

inductive StartError where
  | QUIZ_INACTIVE
  | MAX_ATTEMPTS_REACHED
deriving DecidableEq, Repr

/-- Predicate of the `Submission.count` query (lines 42–48): submissions of
this user and quiz with status in `{completed, in_progress}`. -/
def countsTowardAttempts (userId quizId : ℕ) (s : Submission) : Bool :=
  s.user_id == userId && s.quiz_id == quizId &&
    (s.status == .completed || s.status == .in_progress)

/-- Predicate of the in-progress `findOne` query (lines 59–65). -/
def isInProgressFor (userId quizId : ℕ) (s : Submission) : Bool :=
  s.user_id == userId && s.quiz_id == quizId && s.status == .in_progress

def attemptsCount (db : List Submission) (userId quizId : ℕ) : ℕ :=
  (db.filter (countsTowardAttempts userId quizId)).length

def inProgressCount (db : List Submission) (userId quizId : ℕ) : ℕ :=
  (db.filter (isInProgressFor userId quizId)).length

/-- The row built by `Submission.create` (lines 80–87), with the model
defaults of `src/models/Submission.js`. -/
def createdSubmission (db : List Submission) (quiz : Quiz) (userId newId : ℕ)
    (now : ℚ) : Submission :=
  { id := newId
    user_id := userId
    quiz_id := quiz.id
    attempt_number := attemptsCount db userId quiz.id + 1
    total_questions := quiz.questions.length
    correct_answers := 0
    score_percentage := 0
    total_points_earned := 0
    total_points_possible := (quiz.questions.map (fun q => q.points)).sum
    time_taken_minutes := none
    started_at := now
    completed_at := none
    status := .in_progress
    improvement_suggestions := []
    performance_analysis := none }

structure StartOutcome where
  error : Option StartError
  db : List Submission
  returned : Option Submission
deriving DecidableEq, Repr

def startQuiz (db : List Submission) (quiz : Quiz) (userId newId : ℕ) (now : ℚ) :
    StartOutcome :=
  if !quiz.is_active then ⟨some .QUIZ_INACTIVE, db, none⟩
  else if attemptsCount db userId quiz.id ≥ quiz.max_attempts then
    ⟨some .MAX_ATTEMPTS_REACHED, db, none⟩
  else
    match db.find? (isInProgressFor userId quiz.id) with
    | some inProgressSubmission => ⟨none, db, some inProgressSubmission⟩
    | none =>
      ⟨none, createdSubmission db quiz userId newId now :: db,
        some (createdSubmission db quiz userId newId now)⟩

theorem filter_eq_nil_of_find?_eq_none {α : Type} {p : α → Bool} {l : List α}
    (h : l.find? p = none) : l.filter p = [] := by
  rw [List.filter_eq_nil_iff]
  intro a ha
  exact List.find?_eq_none.mp h a ha

/-- `quizC` with `max_attempts = 1`. -/
def quizMax1 : Quiz := { quizC with max_attempts := 1 }

/-- C7 counterexample: on a quiz with `max_attempts = 1`, two starts without
submitting do NOT return the same submission id: the first start creates
submission 21, and the second is rejected with `MAX_ATTEMPTS_REACHED`
because the in_progress submission itself counts toward the attempt cap,
which is checked before the idempotent-resume lookup. -/
theorem C7_counterexample :
    ((startQuiz [] quizMax1 7 21 0).returned.map (fun s => s.id) = some 21) ∧
    (startQuiz (startQuiz [] quizMax1 7 21 0).db quizMax1 7 22 5).error =
      some .MAX_ATTEMPTS_REACHED ∧
    (startQuiz (startQuiz [] quizMax1 7 21 0).db quizMax1 7 22 5).returned = none :=
  ⟨rfl, rfl, rfl⟩

/-- C7 (amended): for an active quiz, `startQuiz` (i) rejects with
`MAX_ATTEMPTS_REACHED` when the count of `{completed, in_progress}`
submissions already reaches `max_attempts`, leaving the table unchanged;
(ii) otherwise returns an existing in_progress submission unchanged;
(iii) otherwise creates a new in_progress submission with
`attempt_number = count + 1`; (iv) preserves the invariants "at most one
in_progress submission per (user, quiz)" and "accepted submissions never
exceed `max_attempts`"; and (v) two starts without submitting return the
same submission PROVIDED the count after the first start is still below
`max_attempts` (for `max_attempts = 1` the second start is instead rejected,
as the counterexample shows). -/
theorem C7_amended_lifecycle (db : List Submission) (quiz : Quiz)
    (u newId newId2 : ℕ) (now now2 : ℚ) (hactive : quiz.is_active = true) :
    (attemptsCount db u quiz.id ≥ quiz.max_attempts →
      startQuiz db quiz u newId now = ⟨some .MAX_ATTEMPTS_REACHED, db, none⟩) ∧
    (∀ s, attemptsCount db u quiz.id < quiz.max_attempts →
      db.find? (isInProgressFor u quiz.id) = some s →
      startQuiz db quiz u newId now = ⟨none, db, some s⟩) ∧
    (attemptsCount db u quiz.id < quiz.max_attempts →
      db.find? (isInProgressFor u quiz.id) = none →
      startQuiz db quiz u newId now =
        ⟨none, createdSubmission db quiz u newId now :: db,
          some (createdSubmission db quiz u newId now)⟩) ∧
    (inProgressCount db u quiz.id ≤ 1 →
      inProgressCount (startQuiz db quiz u newId now).db u quiz.id ≤ 1) ∧
    (attemptsCount db u quiz.id ≤ quiz.max_attempts →
      attemptsCount (startQuiz db quiz u newId now).db u quiz.id ≤ quiz.max_attempts) ∧
    (attemptsCount db u quiz.id < quiz.max_attempts →
      db.find? (isInProgressFor u quiz.id) = none →
      attemptsCount (startQuiz db quiz u newId now).db u quiz.id < quiz.max_attempts →
      startQuiz (startQuiz db quiz u newId now).db quiz u newId2 now2 =
        ⟨none, (startQuiz db quiz u newId now).db,
          (startQuiz db quiz u newId now).returned⟩) := by
  have hbody : ∀ nid : ℕ, ∀ t : ℚ, startQuiz db quiz u nid t =
      (if attemptsCount db u quiz.id ≥ quiz.max_attempts then
        ⟨some .MAX_ATTEMPTS_REACHED, db, none⟩
      else
        match db.find? (isInProgressFor u quiz.id) with
        | some s => ⟨none, db, some s⟩
        | none =>
          ⟨none, createdSubmission db quiz u nid t :: db,
            some (createdSubmission db quiz u nid t)⟩) := by
    intro nid t
    unfold startQuiz
    rw [hactive]
    simp
  refine ⟨?_, ?_, ?_, ?_, ?_, ?_⟩
  · intro h
    rw [hbody, if_pos h]
  · intro s hlt hfind
    rw [hbody, if_neg (by omega), hfind]
  · intro hlt hfind
    rw [hbody, if_neg (by omega), hfind]
  · intro hinv
    rw [hbody]
    by_cases h : attemptsCount db u quiz.id ≥ quiz.max_attempts
    · rw [if_pos h]
      exact hinv
    · rw [if_neg h]
      rcases hfind : db.find? (isInProgressFor u quiz.id) with _ | s


      · have hnil := filter_eq_nil_of_find?_eq_none hfind
        simp only [inProgressCount, List.filter_cons]
        have hp : isInProgressFor u quiz.id (createdSubmission db quiz u newId now) = true := by
          simp [isInProgressFor, createdSubmission]
        rw [hp]
        simp [hnil]
      · exact hinv
  · intro hle
    rw [hbody]
    by_cases h : attemptsCount db u quiz.id ≥ quiz.max_attempts
    · rw [if_pos h]
      exact hle
    · rw [if_neg h]
      rcases hfind : db.find? (isInProgressFor u quiz.id) with _ | s
      · have hp : countsTowardAttempts u quiz.id (createdSubmission db quiz u newId now) = true := by
          simp [countsTowardAttempts, createdSubmission]
        simp only [attemptsCount] at h ⊢
        simp [List.filter_cons, hp]
        omega
      · exact hle
  · intro hlt hfind hlt2
    have hfirst : startQuiz db quiz u newId now =
        ⟨none, createdSubmission db quiz u newId now :: db,
          some (createdSubmission db quiz u newId now)⟩ := by
      rw [hbody, if_neg (by omega), hfind]
    rw [hfirst] at hlt2 ⊢
    unfold startQuiz
    rw [hactive]
    simp only [Bool.not_true, Bool.false_eq_true, if_false, ite_false]
    rw [if_neg (by simpa using Nat.not_le.mpr hlt2)]
    have hfindnew : (createdSubmission db quiz u newId now :: db).find?
        (isInProgressFor u quiz.id) = some (createdSubmission db quiz u newId now) := by
      rw [List.find?_cons_of_pos]
      simp [isInProgressFor, createdSubmission]
    rw [hfindnew]

/-- Witness for the amended C7 theorem: on the empty table and the 3-attempt
quiz `quizC`, a first start creates attempt 1 and a second start resumes the
same submission. -/
theorem C7_amended_lifecycle_witness :
    startQuiz [] quizC 7 21 0 =
      ⟨none, [createdSubmission [] quizC 7 21 0], some (createdSubmission [] quizC 7 21 0)⟩ ∧
    startQuiz (startQuiz [] quizC 7 21 0).db quizC 7 22 5 =
      ⟨none, (startQuiz [] quizC 7 21 0).db, (startQuiz [] quizC 7 21 0).returned⟩ := by
  have h := C7_amended_lifecycle [] quizC 7 21 22 0 5 rfl
  refine ⟨h.2.2.1 (by decide) rfl, h.2.2.2.2.2 (by decide) rfl ?_⟩
  rw [h.2.2.1 (by decide) rfl]
  decide

end AIQuizzer
